import Mathlib

/-!
Shallow embedding of `src/pong.py`: the Pong physics core (Paddle, Ball,
AIPaddleController).  Rectangle coordinates are integers, as in pygame;
velocities, speeds and AI targets are real numbers, as in Python floats.
Randomness (launch angles, Gaussian noise) is passed in explicitly as
parameters, matching the values the Python RNG would supply.
-/

namespace Pong

/-- Field width, `WIDTH = 800` in the source. -/
def WIDTH : ℤ := 800

/-- Field height, `HEIGHT = 600` in the source. -/
def HEIGHT : ℤ := 600

/-- `PADDLE_WIDTH = 12`. -/
def PADDLE_WIDTH : ℤ := 12

/-- `PADDLE_HEIGHT = 100`. -/
def PADDLE_HEIGHT : ℤ := 100

/-- `PADDLE_SPEED = 7`. -/
def PADDLE_SPEED : ℤ := 7

/-- `AI_PADDLE_SPEED = 6`. -/
def AI_PADDLE_SPEED : ℤ := 6

/-- `BALL_SIZE = 12`. -/
def BALL_SIZE : ℤ := 12

/-- `BALL_SPEED_INITIAL = 6.0`. -/
noncomputable def BALL_SPEED_INITIAL : ℝ := 6.0

/-- `BALL_SPEED_MAX = 12.0`. -/
noncomputable def BALL_SPEED_MAX : ℝ := 12.0

/-- `BALL_SPEED_INCREMENT = 0.35`. -/
noncomputable def BALL_SPEED_INCREMENT : ℝ := 0.35

/-- Python `int()` applied to a float: truncation toward zero. -/
noncomputable def truncR (x : ℝ) : ℤ := if 0 ≤ x then ⌊x⌋ else ⌈x⌉

/-- A pygame `Rect`: integer position `(x, y)` of the top-left corner and
integer size `(w, h)`. -/
structure Rect where
  x : ℤ
  y : ℤ
  w : ℤ
  h : ℤ

/-- `rect.left`. -/
def Rect.left (r : Rect) : ℤ := r.x

/-- `rect.right`. -/
def Rect.right (r : Rect) : ℤ := r.x + r.w

/-- `rect.top`. -/
def Rect.top (r : Rect) : ℤ := r.y

/-- `rect.bottom`. -/
def Rect.bottom (r : Rect) : ℤ := r.y + r.h

/-- `rect.centerx` (pygame: `x + w // 2`). -/
def Rect.centerx (r : Rect) : ℤ := r.x + r.w / 2

/-- `rect.centery` (pygame: `y + h // 2`). -/
def Rect.centery (r : Rect) : ℤ := r.y + r.h / 2

/-- Assignment `rect.top = v`. -/
def Rect.setTop (r : Rect) (v : ℤ) : Rect := { r with y := v }

/-- Assignment `rect.bottom = v` (pygame sets `y = v - h`). -/
def Rect.setBottom (r : Rect) (v : ℤ) : Rect := { r with y := v - r.h }

/-- Assignment `rect.left = v`. -/
def Rect.setLeft (r : Rect) (v : ℤ) : Rect := { r with x := v }

/-- Assignment `rect.right = v` (pygame sets `x = v - w`). -/
def Rect.setRight (r : Rect) (v : ℤ) : Rect := { r with x := v - r.w }

/-- Assignment `rect.center = (cx, cy)` (pygame sets
`x = cx - w // 2`, `y = cy - h // 2`). -/
def Rect.setCenter (r : Rect) (cx cy : ℤ) : Rect :=
  { r with x := cx - r.w / 2, y := cy - r.h / 2 }

/-- `a.colliderect(b)`: pygame overlap test (strict inequalities, so
zero-area rectangles never collide). -/
abbrev Rect.Collides (a b : Rect) : Prop :=
  a.x < b.x + b.w ∧ a.y < b.y + b.h ∧ b.x < a.x + a.w ∧ b.y < a.y + a.h

/-- The `Paddle` dataclass: a rectangle and a per-frame speed. -/
structure Paddle where
  rect : Rect
  speed : ℤ

/-- `Paddle.clamp_to_screen`: clamp `top` to `0`, then `bottom` to `HEIGHT`. -/
def Paddle.clampToScreen (p : Paddle) : Paddle :=
  let r1 := if p.rect.top < 0 then p.rect.setTop 0 else p.rect
  let r2 := if r1.bottom > HEIGHT then r1.setBottom HEIGHT else r1
  { p with rect := r2 }

/-- `Paddle.move(dy)`: `rect.y += int(dy)` followed by `clamp_to_screen()`. -/
noncomputable def Paddle.move (p : Paddle) (dy : ℝ) : Paddle :=
  Paddle.clampToScreen { p with rect := { p.rect with y := p.rect.y + truncR dy } }

/-- The `Ball` class: rectangle, velocity components and speed scalar. -/
structure Ball where
  rect : Rect
  vx : ℝ
  vy : ℝ
  speed : ℝ

/-- `Ball.__init__(rect, speed)`.  The random launch `angle`
(`random.uniform(-0.35π, 0.35π)`) and `direction` (`random.choice([-1, 1])`)
are passed explicitly. -/
noncomputable def Ball.init (rect : Rect) (speed : ℝ) (angle : ℝ) (direction : ℤ) : Ball :=
  { rect := rect
    vx := Real.cos angle * speed * (direction : ℝ)
    vy := Real.sin angle * speed
    speed := speed }

/-- `Ball.reset(direction)`: recenter, reset speed to `BALL_SPEED_INITIAL`,
relaunch at the sampled `angle` with the given horizontal `direction`. -/
noncomputable def Ball.reset (b : Ball) (angle : ℝ) (direction : ℤ) : Ball :=
  { rect := b.rect.setCenter (WIDTH / 2) (HEIGHT / 2)
    vx := Real.cos angle * BALL_SPEED_INITIAL * (direction : ℝ)
    vy := Real.sin angle * BALL_SPEED_INITIAL
    speed := BALL_SPEED_INITIAL }

/-- `Ball._bounce_off_paddle(paddle, is_right)`: reposition flush against the
paddle, compute the clamped impact offset, ramp the speed, and rebuild the
velocity from the deflection angle. -/
noncomputable def Ball.bounceOffPaddle (b : Ball) (paddle : Paddle) (isRight : Bool) : Ball :=
  let r := if isRight then b.rect.setRight paddle.rect.left else b.rect.setLeft paddle.rect.right
  let offset0 : ℝ := ((r.centery - paddle.rect.centery : ℤ) : ℝ) / ((paddle.rect.h : ℝ) / 2)
  let offset : ℝ := max (-1.0) (min 1.0 offset0)
  let speed := min BALL_SPEED_MAX (b.speed + BALL_SPEED_INCREMENT)
  let angle := offset * (0.45 * Real.pi)
  let direction : ℝ := if isRight = false then 1 else -1
  { rect := r
    vx := Real.cos angle * speed * direction
    vy := Real.sin angle * speed
    speed := speed }

/-- First phase of `Ball.update`: `rect.x += int(vx); rect.y += int(vy)`. -/
noncomputable def Ball.moveStep (b : Ball) : Ball :=
  { b with rect := { b.rect with x := b.rect.x + truncR b.vx, y := b.rect.y + truncR b.vy } }

/-- Second phase of `Ball.update`: top/bottom wall handling. -/
noncomputable def Ball.wallStep (b : Ball) : Ball :=
  if b.rect.top ≤ 0 then { b with rect := b.rect.setTop 0, vy := -b.vy }
  else if b.rect.bottom ≥ HEIGHT then { b with rect := b.rect.setBottom HEIGHT, vy := -b.vy }
  else b

/-- Third phase of `Ball.update`: paddle collisions (guarded by velocity
direction, `elif` between the two paddles). -/
noncomputable def Ball.paddleStep (b : Ball) (lp rp : Paddle) : Ball :=
  if b.rect.Collides lp.rect ∧ b.vx < 0 then b.bounceOffPaddle lp false
  else if b.rect.Collides rp.rect ∧ b.vx > 0 then b.bounceOffPaddle rp true
  else b

/-- Fourth phase of `Ball.update`: goal detection and reset; returns the new
ball and the `(score_left, score_right)` deltas. -/
noncomputable def Ball.scoreStep (b : Ball) (angle : ℝ) : Ball × ℤ × ℤ :=
  if b.rect.right < 0 then (b.reset angle (-1), 0, 1)
  else if b.rect.left > WIDTH then (b.reset angle 1, 1, 0)
  else (b, 0, 0)

/-- `Ball.update(left, right)`: the four phases in source order.  `angle` is
the launch angle the RNG would supply if a reset happens this frame. -/
noncomputable def Ball.update (b : Ball) (angle : ℝ) (lp rp : Paddle) : Ball × ℤ × ℤ :=
  ((b.moveStep.wallStep).paddleStep lp rp).scoreStep angle

/-- The `AIPaddleController` class state. -/
structure AIPaddleController where
  paddle : Paddle
  ball : Ball
  update_interval_ms : ℤ
  last_update_time : ℤ
  target_center_y : ℝ
  center_bias : ℝ

/-- `AIPaddleController.__init__(paddle, ball)`. -/
noncomputable def AIPaddleController.init (paddle : Paddle) (ball : Ball) : AIPaddleController :=
  { paddle := paddle
    ball := ball
    update_interval_ms := 120
    last_update_time := 0
    target_center_y := HEIGHT / 2
    center_bias := 0.15 }

/-- `AIPaddleController.update()`.  `now` is `pygame.time.get_ticks()` and
`z` is the standard normal draw behind `random.gauss(0.0, sigma)` (so the
sampled noise is `z * sigma`). -/
noncomputable def AIPaddleController.update (c : AIPaddleController) (now : ℤ) (z : ℝ) :
    AIPaddleController :=
  let shouldUpdate := now - c.last_update_time ≥ c.update_interval_ms
  let ballTowardsAI := c.ball.vx > 0
  let c1 :=
    if shouldUpdate then
      if ballTowardsAI then
        let distance_x : ℤ := max 1 (WIDTH - c.ball.rect.centerx)
        let speed_factor : ℝ := max 1.0 |c.ball.vx|
        let sigma : ℝ := min 80.0 (8.0 + ((distance_x : ℝ) / 20.0) + speed_factor * 1.2)
        let noise := z * sigma
        { c with last_update_time := now
                 target_center_y := (c.ball.rect.centery : ℝ) + noise }
      else
        let noise := z * 25.0
        { c with last_update_time := now
                 target_center_y :=
                   (1 - c.center_bias) * c.target_center_y
                     + c.center_bias * ((HEIGHT : ℝ) / 2 + noise) }
    else c
  let dy0 : ℝ := c1.target_center_y - (c1.paddle.rect.centery : ℝ)
  let dy : ℝ :=
    if |dy0| > (c1.paddle.speed : ℝ) then
      (if dy0 > 0 then (AI_PADDLE_SPEED : ℝ) else -(AI_PADDLE_SPEED : ℝ))
    else dy0
  { c1 with paddle := c1.paddle.move dy }

/-- Spec invariant: the speed scalar stays within the configured bounds. -/
noncomputable def speedInv (b : Ball) : Prop :=
  BALL_SPEED_INITIAL ≤ b.speed ∧ b.speed ≤ BALL_SPEED_MAX

/-- Spec invariant: the velocity magnitude equals the speed scalar. -/
noncomputable def velInv (b : Ball) : Prop :=
  Real.sqrt (b.vx ^ 2 + b.vy ^ 2) = b.speed

/-- Balls reachable from a ball constructed with `BALL_SPEED_INITIAL` by any
sequence of `update`, `_bounce_off_paddle` and `reset` operations, with
arbitrary RNG samples, paddles and reset directions. -/
inductive Ball.Reachable : Ball → Prop where
  | init (rect : Rect) (angle : ℝ) (direction : ℤ) :
      Ball.Reachable (Ball.init rect BALL_SPEED_INITIAL angle direction)
  | update (b : Ball) (angle : ℝ) (lp rp : Paddle) : Ball.Reachable b →
      Ball.Reachable (b.update angle lp rp).1
  | bounce (b : Ball) (p : Paddle) (isRight : Bool) : Ball.Reachable b →
      Ball.Reachable (b.bounceOffPaddle p isRight)
  | reset (b : Ball) (angle : ℝ) (direction : ℤ) : Ball.Reachable b →
      Ball.Reachable (b.reset angle direction)

/-! ### Helper lemmas -/

theorem truncR_intCast (n : ℤ) : truncR (n : ℝ) = n := by
  unfold truncR
  split_ifs
  · exact Int.floor_intCast n
  · exact Int.ceil_intCast n

@[simp] theorem truncR_zero : truncR 0 = 0 := by
  unfold truncR
  norm_num

theorem truncR_abs_le (x : ℝ) (c : ℤ) (h : |x| ≤ (c : ℝ)) : |truncR x| ≤ c := by
  unfold truncR
  rcases abs_le.mp h with ⟨h1, h2⟩
  split_ifs with hx
  · have h0 : (0 : ℤ) ≤ ⌊x⌋ := Int.floor_nonneg.mpr hx
    have hc : ⌊x⌋ ≤ c := by
      have hcc : (⌊x⌋ : ℝ) ≤ (c : ℝ) := le_trans (Int.floor_le x) h2
      exact_mod_cast hcc
    rw [abs_of_nonneg h0]
    exact hc
  · push_neg at hx
    have h0 : ⌈x⌉ ≤ 0 := by
      have hx0 : x ≤ ((0 : ℤ) : ℝ) := by exact_mod_cast le_of_lt hx
      exact Int.ceil_le.mpr hx0
    have hc : -c ≤ ⌈x⌉ := by
      have hcx : ((-c : ℤ) : ℝ) ≤ (⌈x⌉ : ℝ) := by
        push_cast
        linarith [Int.le_ceil x]
      exact_mod_cast hcx
    rw [abs_of_nonpos h0]
    omega

/-! ### C8: Paddle.move -/

/-- C8 counterexample: the claim says `move(delta)` adds `delta` to the
vertical position, but for the fractional delta `1/2` the position does not
change at all (the code adds `int(delta)`, the truncation toward zero). -/
theorem paddle_move_fractional_counterexample :
    ((((⟨⟨32, 100, 12, 100⟩, 7⟩ : Paddle).move (1/2)).rect.y
        - (⟨⟨32, 100, 12, 100⟩, 7⟩ : Paddle).rect.y : ℤ) : ℝ) ≠ (1/2 : ℝ) := by
  have ht : truncR (1/2 : ℝ) = 0 := by
    unfold truncR
    norm_num
  simp only [Paddle.move, Paddle.clampToScreen, Rect.setTop, Rect.setBottom,
    Rect.top, Rect.bottom, ht, HEIGHT]
  norm_num

/-- C8 (amended): `Paddle.move(delta)` adds the integer truncation (toward
zero) of `delta` to the vertical position and then applies the two clamp
steps (`top` to `0`, then `bottom` to `HEIGHT`); `x`, width, height and
speed are untouched. -/
theorem paddle_move_eq (p : Paddle) (dy : ℝ) :
    (p.move dy).rect.x = p.rect.x ∧ (p.move dy).rect.w = p.rect.w ∧
    (p.move dy).rect.h = p.rect.h ∧ (p.move dy).speed = p.speed ∧
    (p.move dy).rect.y =
      (if (if p.rect.y + truncR dy < 0 then 0 else p.rect.y + truncR dy) + p.rect.h > HEIGHT
       then HEIGHT - p.rect.h
       else if p.rect.y + truncR dy < 0 then 0 else p.rect.y + truncR dy) := by
  obtain ⟨⟨px, py, pw, ph⟩, ps⟩ := p
  simp only [Paddle.move, Paddle.clampToScreen, Rect.setTop, Rect.setBottom,
    Rect.top, Rect.bottom]
  split_ifs <;> simp_all

/-! ### C9: paddle clamping invariant -/

/-- C9: if the paddle's height is at most the field height, then after any
`move(delta)` the paddle rectangle lies within the vertical bounds
`[0, HEIGHT]`. -/
theorem paddle_move_in_bounds (p : Paddle) (dy : ℝ) (hh : p.rect.h ≤ HEIGHT) :
    0 ≤ (p.move dy).rect.top ∧ (p.move dy).rect.bottom ≤ HEIGHT := by
  obtain ⟨⟨px, py, pw, ph⟩, ps⟩ := p
  simp only [Paddle.move, Paddle.clampToScreen, Rect.setTop, Rect.setBottom,
    Rect.top, Rect.bottom] at *
  split_ifs <;> constructor <;> (try dsimp only at *) <;> omega

/-- C9 witness: a concrete paddle moved far upward stays in bounds. -/
theorem paddle_move_in_bounds_witness :
    (⟨⟨32, 100, 12, 100⟩, 7⟩ : Paddle).rect.h ≤ HEIGHT ∧
    (0 ≤ ((⟨⟨32, 100, 12, 100⟩, 7⟩ : Paddle).move (-10000)).rect.top ∧
      ((⟨⟨32, 100, 12, 100⟩, 7⟩ : Paddle).move (-10000)).rect.bottom ≤ HEIGHT) :=
  ⟨by norm_num [HEIGHT], paddle_move_in_bounds _ _ (by norm_num [HEIGHT])⟩

/-! ### Speed lemmas -/

theorem moveStep_speed (b : Ball) : b.moveStep.speed = b.speed := rfl

theorem wallStep_speed (b : Ball) : b.wallStep.speed = b.speed := by
  unfold Ball.wallStep
  split_ifs <;> rfl

theorem bounce_speed (b : Ball) (p : Paddle) (isRight : Bool) :
    (b.bounceOffPaddle p isRight).speed = min BALL_SPEED_MAX (b.speed + BALL_SPEED_INCREMENT) :=
  rfl

theorem reset_speed (b : Ball) (angle : ℝ) (direction : ℤ) :
    (b.reset angle direction).speed = BALL_SPEED_INITIAL := rfl

theorem speedInv_reset (b : Ball) (angle : ℝ) (direction : ℤ) :
    speedInv (b.reset angle direction) := by
  unfold speedInv
  rw [reset_speed]
  unfold BALL_SPEED_INITIAL BALL_SPEED_MAX
  norm_num

theorem speedInv_bounce (b : Ball) (p : Paddle) (isRight : Bool) (hb : speedInv b) :
    speedInv (b.bounceOffPaddle p isRight) := by
  unfold speedInv at *
  rw [bounce_speed]
  unfold BALL_SPEED_INITIAL BALL_SPEED_MAX BALL_SPEED_INCREMENT at *
  obtain ⟨h1, h2⟩ := hb
  refine ⟨le_min (by norm_num) (by nlinarith), min_le_left _ _⟩

theorem speedInv_paddleStep (b : Ball) (lp rp : Paddle) (hb : speedInv b) :
    speedInv (b.paddleStep lp rp) := by
  unfold Ball.paddleStep
  split_ifs
  · exact speedInv_bounce b lp false hb
  · exact speedInv_bounce b rp true hb
  · exact hb

theorem speedInv_wallStep (b : Ball) (hb : speedInv b) : speedInv b.wallStep := by
  unfold speedInv at *
  rw [wallStep_speed]
  exact hb

theorem speedInv_update (b : Ball) (angle : ℝ) (lp rp : Paddle) (hb : speedInv b) :
    speedInv (b.update angle lp rp).1 := by
  unfold Ball.update Ball.scoreStep
  have h3 : speedInv ((b.moveStep.wallStep).paddleStep lp rp) :=
    speedInv_paddleStep _ _ _ (speedInv_wallStep _ hb)
  split_ifs
  · exact speedInv_reset _ _ _
  · exact speedInv_reset _ _ _
  · exact h3

/-! ### C2: speed bound invariant -/

/-- C2: every ball reachable from a ball constructed with speed
`BALL_SPEED_INITIAL` by any sequence of `update`, bounce and `reset`
operations has `BALL_SPEED_INITIAL ≤ speed ≤ BALL_SPEED_MAX`. -/
theorem ball_speed_invariant (b : Ball) (hb : Ball.Reachable b) :
    BALL_SPEED_INITIAL ≤ b.speed ∧ b.speed ≤ BALL_SPEED_MAX := by
  induction hb with
  | init rect angle direction =>
      constructor
      · exact le_of_eq rfl
      · unfold Ball.init BALL_SPEED_INITIAL BALL_SPEED_MAX
        norm_num
  | update b angle lp rp hb ih => exact speedInv_update b angle lp rp ih
  | bounce b p isRight hb ih => exact speedInv_bounce b p isRight ih
  | reset b angle direction hb ih => exact speedInv_reset b angle direction

/-- C2 witness: a freshly constructed ball, updated once in open field, has
its speed within bounds. -/
theorem ball_speed_invariant_witness :
    BALL_SPEED_INITIAL ≤
        ((Ball.init ⟨394, 294, 12, 12⟩ BALL_SPEED_INITIAL 0 1).update 0
            ⟨⟨32, 250, 12, 100⟩, 7⟩ ⟨⟨756, 250, 12, 100⟩, 6⟩).1.speed ∧
      ((Ball.init ⟨394, 294, 12, 12⟩ BALL_SPEED_INITIAL 0 1).update 0
            ⟨⟨32, 250, 12, 100⟩, 7⟩ ⟨⟨756, 250, 12, 100⟩, 6⟩).1.speed ≤ BALL_SPEED_MAX :=
  ball_speed_invariant _
    (Ball.Reachable.update _ 0 _ _ (Ball.Reachable.init ⟨394, 294, 12, 12⟩ 0 1))

/-! ### Velocity magnitude lemmas -/

theorem sqrt_reconstructed (a s d : ℝ) (hd : d = 1 ∨ d = -1) (hs : 0 ≤ s) :
    Real.sqrt ((Real.cos a * s * d) ^ 2 + (Real.sin a * s) ^ 2) = s := by
  have key : (Real.cos a * s * d) ^ 2 + (Real.sin a * s) ^ 2 = s ^ 2 := by
    rcases hd with h | h <;> subst h <;>
      linear_combination (s ^ 2) * Real.sin_sq_add_cos_sq a
  rw [key, Real.sqrt_sq hs]

theorem velInv_bounce (b : Ball) (p : Paddle) (isRight : Bool) (hs : 0 ≤ b.speed) :
    velInv (b.bounceOffPaddle p isRight) := by
  unfold velInv Ball.bounceOffPaddle
  dsimp only
  apply sqrt_reconstructed
  · cases isRight <;> simp
  · rw [le_min_iff]
    unfold BALL_SPEED_MAX BALL_SPEED_INCREMENT
    constructor
    · norm_num
    · nlinarith

theorem velInv_reset (b : Ball) (angle : ℝ) (d : ℤ) (hd : d = 1 ∨ d = -1) :
    velInv (b.reset angle d) := by
  unfold velInv Ball.reset
  dsimp only
  apply sqrt_reconstructed
  · rcases hd with h | h <;> subst h <;> norm_num
  · unfold BALL_SPEED_INITIAL
    norm_num

theorem velInv_wallStep (b : Ball) (hv : velInv b) : velInv b.wallStep := by
  unfold velInv Ball.wallStep at *
  split_ifs
  · rw [neg_sq]
    exact hv
  · rw [neg_sq]
    exact hv
  · exact hv

theorem velInv_paddleStep (b : Ball) (lp rp : Paddle) (hs : 0 ≤ b.speed) (hv : velInv b) :
    velInv (b.paddleStep lp rp) := by
  unfold Ball.paddleStep
  split_ifs
  · exact velInv_bounce b lp false hs
  · exact velInv_bounce b rp true hs
  · exact hv

theorem velInv_update (b : Ball) (angle : ℝ) (lp rp : Paddle)
    (hs : 0 ≤ b.speed) (hv : velInv b) : velInv (b.update angle lp rp).1 := by
  unfold Ball.update Ball.scoreStep
  have hs2 : (0 : ℝ) ≤ b.moveStep.wallStep.speed := by
    rw [wallStep_speed, moveStep_speed]
    exact hs
  have hv2 : velInv b.moveStep.wallStep := velInv_wallStep _ hv
  have h3 : velInv ((b.moveStep.wallStep).paddleStep lp rp) :=
    velInv_paddleStep _ _ _ hs2 hv2
  split_ifs
  · exact velInv_reset _ _ _ (Or.inr rfl)
  · exact velInv_reset _ _ _ (Or.inl rfl)
  · exact h3

/-! ### C3: velocity-magnitude consistency -/

/-- C3: after any paddle bounce (from a nonnegative speed), after any reset
with direction `±1`, and after any `update` of a ball already satisfying the
invariant, `sqrt(vx² + vy²)` equals the speed scalar exactly, because `vx`
and `vy` are reconstructed as `cos(angle)·speed` and `sin(angle)·speed`
(wall collisions only negate `vy`, which preserves the magnitude). -/
theorem ball_velocity_magnitude :
    (∀ (b : Ball) (p : Paddle) (isRight : Bool), 0 ≤ b.speed →
        velInv (b.bounceOffPaddle p isRight)) ∧
    (∀ (b : Ball) (angle : ℝ) (d : ℤ), d = 1 ∨ d = -1 → velInv (b.reset angle d)) ∧
    (∀ (b : Ball) (angle : ℝ) (lp rp : Paddle), 0 ≤ b.speed → velInv b →
        velInv (b.update angle lp rp).1) :=
  ⟨fun b p isRight hs => velInv_bounce b p isRight hs,
   fun b angle d hd => velInv_reset b angle d hd,
   fun b angle lp rp hs hv => velInv_update b angle lp rp hs hv⟩

/-- C3 witness: a concrete rightward ball keeps `sqrt(vx²+vy²) = speed`
through a full `update` in an open field. -/
theorem ball_velocity_magnitude_witness :
    velInv ((⟨⟨394, 294, 12, 12⟩, 6, 0, 6⟩ : Ball).update 0
        ⟨⟨32, 250, 12, 100⟩, 7⟩ ⟨⟨756, 250, 12, 100⟩, 6⟩).1 :=
  ball_velocity_magnitude.2.2 _ 0 _ _ (by norm_num)
    (by
      unfold velInv
      norm_num
      rw [show ((36 : ℝ)) = 6 ^ 2 by norm_num, Real.sqrt_sq (by norm_num)])

/-! ### C4: scoring exclusivity -/

/-- C4: the two score deltas returned by `Ball.update` are each `0` or `1`,
never both `1`; and when the post-collision rectangle crosses neither goal
boundary, both deltas are `0`. -/
theorem update_score_deltas (b : Ball) (angle : ℝ) (lp rp : Paddle) :
    ((b.update angle lp rp).2.1 = 0 ∨ (b.update angle lp rp).2.1 = 1) ∧
    ((b.update angle lp rp).2.2 = 0 ∨ (b.update angle lp rp).2.2 = 1) ∧
    ¬((b.update angle lp rp).2.1 = 1 ∧ (b.update angle lp rp).2.2 = 1) ∧
    (0 ≤ ((b.moveStep.wallStep).paddleStep lp rp).rect.right →
      ((b.moveStep.wallStep).paddleStep lp rp).rect.left ≤ WIDTH →
      (b.update angle lp rp).2.1 = 0 ∧ (b.update angle lp rp).2.2 = 0) := by
  unfold Ball.update Ball.scoreStep
  split_ifs with h1 h2 <;> norm_num <;> omega

/-- C4 witness: a concrete mid-field frame crosses neither boundary and
yields `(0, 0)` deltas. -/
theorem update_score_deltas_witness :
    ((⟨⟨394, 294, 12, 12⟩, 0, 0, 6⟩ : Ball).update 0
        ⟨⟨32, 250, 12, 100⟩, 7⟩ ⟨⟨756, 250, 12, 100⟩, 6⟩).2.1 = 0 ∧
    ((⟨⟨394, 294, 12, 12⟩, 0, 0, 6⟩ : Ball).update 0
        ⟨⟨32, 250, 12, 100⟩, 7⟩ ⟨⟨756, 250, 12, 100⟩, 6⟩).2.2 = 0 :=
  (update_score_deltas _ 0 _ _).2.2.2
    (by norm_num [Ball.moveStep, Ball.wallStep, Ball.paddleStep, Rect.Collides,
      Rect.top, Rect.bottom, Rect.left, Rect.right, Rect.setTop, Rect.setBottom,
      HEIGHT, WIDTH])
    (by norm_num [Ball.moveStep, Ball.wallStep, Ball.paddleStep, Rect.Collides,
      Rect.top, Rect.bottom, Rect.left, Rect.right, Rect.setTop, Rect.setBottom,
      HEIGHT, WIDTH])

/-! ### C1: goal detection and serve direction -/

/-- C1 counterexample: with the ball already past the left boundary, the
right player scores 1, but the reset is invoked with `direction = -1`, so
the new horizontal velocity is `-6`, not positive as the claim states. -/
theorem update_right_goal_serve_counterexample :
    ((⟨⟨-20, 294, 12, 12⟩, 0, 0, 6⟩ : Ball).update 0
        ⟨⟨32, 250, 12, 100⟩, 7⟩ ⟨⟨756, 250, 12, 100⟩, 6⟩).2.2 = 1 ∧
    ¬(0 < ((⟨⟨-20, 294, 12, 12⟩, 0, 0, 6⟩ : Ball).update 0
        ⟨⟨32, 250, 12, 100⟩, 7⟩ ⟨⟨756, 250, 12, 100⟩, 6⟩).1.vx) := by
  norm_num [Ball.update, Ball.moveStep, Ball.wallStep, Ball.paddleStep,
    Ball.scoreStep, Ball.reset, Rect.Collides, Rect.top, Rect.bottom,
    Rect.left, Rect.right, Rect.setTop, Rect.setBottom, Rect.setCenter,
    HEIGHT, WIDTH, BALL_SPEED_INITIAL, Real.cos_zero]

/-- C1 (amended): when the post-collision rectangle's right edge has crossed
the left boundary, the right player scores 1 and the ball is reset with
`direction = -1` (new horizontal velocity negative, i.e. serving toward the
side that was just scored against); symmetrically, when the left edge
crosses the right boundary, the left player scores 1 and the ball resets
with `direction = +1` (velocity positive). -/
theorem update_goal_scoring_serve_direction (b : Ball) (angle : ℝ) (lp rp : Paddle)
    (ha1 : -(0.35 * Real.pi) ≤ angle) (ha2 : angle ≤ 0.35 * Real.pi) :
    (((b.moveStep.wallStep).paddleStep lp rp).rect.right < 0 →
      b.update angle lp rp =
        (((b.moveStep.wallStep).paddleStep lp rp).reset angle (-1), 0, 1) ∧
      (b.update angle lp rp).1.vx < 0) ∧
    (¬((b.moveStep.wallStep).paddleStep lp rp).rect.right < 0 →
      ((b.moveStep.wallStep).paddleStep lp rp).rect.left > WIDTH →
      b.update angle lp rp =
        (((b.moveStep.wallStep).paddleStep lp rp).reset angle 1, 1, 0) ∧
      0 < (b.update angle lp rp).1.vx) := by
  have hcos : 0 < Real.cos angle := by
    apply Real.cos_pos_of_mem_Ioo
    constructor
    · nlinarith [Real.pi_pos]
    · nlinarith [Real.pi_pos]
  unfold Ball.update Ball.scoreStep
  constructor
  · intro h
    rw [if_pos h]
    refine ⟨rfl, ?_⟩
    unfold Ball.reset
    dsimp only
    unfold BALL_SPEED_INITIAL
    push_cast
    nlinarith
  · intro h1 h2
    rw [if_neg h1, if_pos h2]
    refine ⟨rfl, ?_⟩
    unfold Ball.reset
    dsimp only
    unfold BALL_SPEED_INITIAL
    push_cast
    nlinarith

/-- C1 witness: the concrete left-goal frame scores for the right player and
serves leftward. -/
theorem update_goal_scoring_witness :
    (⟨⟨-20, 294, 12, 12⟩, 0, 0, 6⟩ : Ball).update 0
        ⟨⟨32, 250, 12, 100⟩, 7⟩ ⟨⟨756, 250, 12, 100⟩, 6⟩ =
      ((((⟨⟨-20, 294, 12, 12⟩, 0, 0, 6⟩ : Ball).moveStep.wallStep).paddleStep
          ⟨⟨32, 250, 12, 100⟩, 7⟩ ⟨⟨756, 250, 12, 100⟩, 6⟩).reset 0 (-1), 0, 1) ∧
    ((⟨⟨-20, 294, 12, 12⟩, 0, 0, 6⟩ : Ball).update 0
        ⟨⟨32, 250, 12, 100⟩, 7⟩ ⟨⟨756, 250, 12, 100⟩, 6⟩).1.vx < 0 :=
  (update_goal_scoring_serve_direction _ 0 _ _
      (by nlinarith [Real.pi_pos]) (by nlinarith [Real.pi_pos])).1
    (by norm_num [Ball.moveStep, Ball.wallStep, Ball.paddleStep, Rect.Collides,
      Rect.top, Rect.bottom, Rect.left, Rect.right, Rect.setTop, Rect.setBottom,
      HEIGHT, WIDTH])

/-! ### C5: reflection correctness -/

theorem bounce_offset_vel (b : Ball) (p : Paddle) (isRight : Bool) :
    (b.bounceOffPaddle p isRight).vx =
      Real.cos ((max (-1.0) (min 1.0 (((b.rect.centery - p.rect.centery : ℤ) : ℝ) /
        ((p.rect.h : ℝ) / 2)))) * (0.45 * Real.pi)) *
        min BALL_SPEED_MAX (b.speed + BALL_SPEED_INCREMENT) *
        (if isRight = false then 1 else -1) ∧
    (b.bounceOffPaddle p isRight).vy =
      Real.sin ((max (-1.0) (min 1.0 (((b.rect.centery - p.rect.centery : ℤ) : ℝ) /
        ((p.rect.h : ℝ) / 2)))) * (0.45 * Real.pi)) *
        min BALL_SPEED_MAX (b.speed + BALL_SPEED_INCREMENT) := by
  cases isRight <;> exact ⟨rfl, rfl⟩

/-- C5: a dead-center hit on the left paddle (impact offset 0) reflects the
ball rightward (`vx > 0`) with exactly horizontal velocity (`vy = 0`); an
impact offset of `+1` (resp. `-1`) yields the maximum deflection angle
`0.45π` (resp. `-0.45π`) from the horizontal. -/
theorem bounce_reflection (b : Ball) (p : Paddle) (hs : 0 ≤ b.speed) (hh : 0 < p.rect.h) :
    (b.rect.centery = p.rect.centery →
      0 < (b.bounceOffPaddle p false).vx ∧ (b.bounceOffPaddle p false).vy = 0) ∧
    (((b.rect.centery - p.rect.centery : ℤ) : ℝ) = (p.rect.h : ℝ) / 2 →
      (b.bounceOffPaddle p false).vx =
        Real.cos (0.45 * Real.pi) * min BALL_SPEED_MAX (b.speed + BALL_SPEED_INCREMENT) ∧
      (b.bounceOffPaddle p false).vy =
        Real.sin (0.45 * Real.pi) * min BALL_SPEED_MAX (b.speed + BALL_SPEED_INCREMENT)) ∧
    (((b.rect.centery - p.rect.centery : ℤ) : ℝ) = -((p.rect.h : ℝ) / 2) →
      (b.bounceOffPaddle p false).vx =
        Real.cos (-(0.45 * Real.pi)) * min BALL_SPEED_MAX (b.speed + BALL_SPEED_INCREMENT) ∧
      (b.bounceOffPaddle p false).vy =
        Real.sin (-(0.45 * Real.pi)) * min BALL_SPEED_MAX (b.speed + BALL_SPEED_INCREMENT)) := by
  obtain ⟨hvx, hvy⟩ := bounce_offset_vel b p false
  have hsp : 0 < min BALL_SPEED_MAX (b.speed + BALL_SPEED_INCREMENT) := by
    rw [lt_min_iff]
    unfold BALL_SPEED_MAX BALL_SPEED_INCREMENT
    constructor
    · norm_num
    · nlinarith
  have hhalf : ((p.rect.h : ℝ) / 2) ≠ 0 := by
    have : (0 : ℝ) < (p.rect.h : ℝ) := by exact_mod_cast hh
    positivity
  refine ⟨?_, ?_, ?_⟩
  · intro hc
    have h0 : ((b.rect.centery - p.rect.centery : ℤ) : ℝ) = 0 := by
      rw [hc]
      push_cast
      ring
    rw [hvx, hvy, h0, zero_div,
      show max (-1.0 : ℝ) (min 1.0 0) = 0 by norm_num [min_def, max_def],
      zero_mul, Real.cos_zero, Real.sin_zero]
    norm_num
    exact lt_min_iff.mp hsp
  · intro hc
    rw [hvx, hvy, hc, div_self hhalf,
      show max (-1.0 : ℝ) (min 1.0 1) = 1 by norm_num [min_def, max_def],
      one_mul]
    norm_num
  · intro hc
    rw [hvx, hvy, hc, neg_div, div_self hhalf,
      show max (-1.0 : ℝ) (min 1.0 (-1)) = -1 by norm_num [min_def, max_def],
      show ((-1 : ℝ) * (0.45 * Real.pi)) = -(0.45 * Real.pi) by ring]
    norm_num

/-- C5 witness: a concrete ball at the left paddle's vertical center bounces
rightward with zero vertical velocity. -/
theorem bounce_reflection_witness :
    0 < ((⟨⟨20, 294, 12, 12⟩, -6, 0, 6⟩ : Ball).bounceOffPaddle
        ⟨⟨32, 250, 12, 100⟩, 7⟩ false).vx ∧
    ((⟨⟨20, 294, 12, 12⟩, -6, 0, 6⟩ : Ball).bounceOffPaddle
        ⟨⟨32, 250, 12, 100⟩, 7⟩ false).vy = 0 :=
  (bounce_reflection _ _ (by norm_num) (by norm_num)).1 (by norm_num [Rect.centery])

/-! ### C6: AI staleness and bounded movement -/

theorem move_y_change_abs_le (p : Paddle) (dy : ℝ) (t : ℤ)
    (htop : 0 ≤ p.rect.top) (hbot : p.rect.bottom ≤ HEIGHT)
    (ht : |truncR dy| ≤ t) : |(p.move dy).rect.y - p.rect.y| ≤ t := by
  obtain ⟨⟨px, py, pw, ph⟩, ps⟩ := p
  simp only [Paddle.move, Paddle.clampToScreen, Rect.setTop, Rect.setBottom,
    Rect.top, Rect.bottom] at *
  rw [abs_le] at ht ⊢
  constructor <;> (split_ifs <;> (try dsimp only at *) <;> omega)

theorem ai_move_bound_aux (p : Paddle) (target : ℝ) (hsp : p.speed = AI_PADDLE_SPEED)
    (htop : 0 ≤ p.rect.top) (hbot : p.rect.bottom ≤ HEIGHT) :
    |(p.move (if |target - (p.rect.centery : ℝ)| > (p.speed : ℝ)
        then (if target - (p.rect.centery : ℝ) > 0 then (AI_PADDLE_SPEED : ℝ)
          else -(AI_PADDLE_SPEED : ℝ))
        else target - (p.rect.centery : ℝ))).rect.y - p.rect.y| ≤ AI_PADDLE_SPEED := by
  apply move_y_change_abs_le _ _ _ htop hbot
  apply truncR_abs_le
  split_ifs with h1 h2
  · rw [abs_le]
    constructor <;> norm_num [AI_PADDLE_SPEED]
  · rw [abs_le]
    constructor <;> norm_num [AI_PADDLE_SPEED]
  · push_neg at h1
    rw [hsp] at h1
    exact h1

/-- C6 (amended): a call within the 120 ms reaction interval leaves the
stored target unchanged, and on every call the paddle's vertical position
changes by at most `AI_PADDLE_SPEED` in magnitude (the commanded delta is
the full delta truncated to an integer when its magnitude is within the
per-frame cap, the signed `AI_PADDLE_SPEED` otherwise, and the boundary
clamp can only shrink the resulting change). -/
theorem ai_staleness_bound (c : AIPaddleController) (now : ℤ) (z : ℝ)
    (hint : c.update_interval_ms = 120)
    (hsp : c.paddle.speed = AI_PADDLE_SPEED)
    (htop : 0 ≤ c.paddle.rect.top) (hbot : c.paddle.rect.bottom ≤ HEIGHT) :
    (now - c.last_update_time < 120 →
      (c.update now z).target_center_y = c.target_center_y) ∧
    |(c.update now z).paddle.rect.y - c.paddle.rect.y| ≤ AI_PADDLE_SPEED := by
  constructor
  · intro h
    have hno : ¬(now - c.last_update_time ≥ c.update_interval_ms) := by omega
    simp only [AIPaddleController.update, if_neg hno]
  · by_cases hsu : now - c.last_update_time ≥ c.update_interval_ms
    · by_cases htw : c.ball.vx > 0
      · simp only [AIPaddleController.update, if_pos hsu, if_pos htw]
        exact ai_move_bound_aux c.paddle _ hsp htop hbot
      · simp only [AIPaddleController.update, if_pos hsu, if_neg htw]
        exact ai_move_bound_aux c.paddle _ hsp htop hbot
    · simp only [AIPaddleController.update, if_neg hsu]
      exact ai_move_bound_aux c.paddle _ hsp htop hbot

/-- C6 counterexample: a paddle already at the top wall with the stale
target 5 pixels above its center has a commanded delta of `-5`, within the
per-frame cap, yet its position does not change at all — the boundary clamp
cancels the move, refuting the claim's "full delta" parenthetical. -/
theorem ai_full_delta_counterexample :
    |(45 : ℝ) - ((⟨⟨⟨756, 0, 12, 100⟩, 6⟩, ⟨⟨394, 294, 12, 12⟩, -6, 0, 6⟩, 120, 0, 45,
        0.15⟩ : AIPaddleController).paddle.rect.centery : ℝ)| ≤
      ((⟨⟨⟨756, 0, 12, 100⟩, 6⟩, ⟨⟨394, 294, 12, 12⟩, -6, 0, 6⟩, 120, 0, 45,
        0.15⟩ : AIPaddleController).paddle.speed : ℝ) ∧
    ((((⟨⟨⟨756, 0, 12, 100⟩, 6⟩, ⟨⟨394, 294, 12, 12⟩, -6, 0, 6⟩, 120, 0, 45,
        0.15⟩ : AIPaddleController).update 0 0).paddle.rect.y -
      (⟨⟨⟨756, 0, 12, 100⟩, 6⟩, ⟨⟨394, 294, 12, 12⟩, -6, 0, 6⟩, 120, 0, 45,
        0.15⟩ : AIPaddleController).paddle.rect.y : ℤ) : ℝ) ≠
      (45 : ℝ) - ((⟨⟨⟨756, 0, 12, 100⟩, 6⟩, ⟨⟨394, 294, 12, 12⟩, -6, 0, 6⟩, 120, 0, 45,
        0.15⟩ : AIPaddleController).paddle.rect.centery : ℝ) := by
  have htr : truncR (-5 : ℝ) = -5 := by
    rw [show ((-5 : ℝ)) = ((-5 : ℤ) : ℝ) by norm_num, truncR_intCast]
  constructor
  · norm_num [Rect.centery]
  · norm_num [AIPaddleController.update, Rect.centery, Paddle.move,
      Paddle.clampToScreen, Rect.setTop, Rect.setBottom, Rect.top, Rect.bottom,
      HEIGHT, htr]

/-- C6 witness: a concrete call 60 ms after the last recompute keeps the
target and moves the paddle by at most the AI speed. -/
theorem ai_staleness_bound_witness :
    ((60 : ℤ) - (⟨⟨⟨756, 250, 12, 100⟩, 6⟩, ⟨⟨394, 294, 12, 12⟩, -6, 0, 6⟩, 120, 0, 300,
        0.15⟩ : AIPaddleController).last_update_time < 120 →
      ((⟨⟨⟨756, 250, 12, 100⟩, 6⟩, ⟨⟨394, 294, 12, 12⟩, -6, 0, 6⟩, 120, 0, 300,
        0.15⟩ : AIPaddleController).update 60 0).target_center_y =
        (⟨⟨⟨756, 250, 12, 100⟩, 6⟩, ⟨⟨394, 294, 12, 12⟩, -6, 0, 6⟩, 120, 0, 300,
        0.15⟩ : AIPaddleController).target_center_y) ∧
    |(((⟨⟨⟨756, 250, 12, 100⟩, 6⟩, ⟨⟨394, 294, 12, 12⟩, -6, 0, 6⟩, 120, 0, 300,
        0.15⟩ : AIPaddleController).update 60 0).paddle.rect.y -
      (⟨⟨⟨756, 250, 12, 100⟩, 6⟩, ⟨⟨394, 294, 12, 12⟩, -6, 0, 6⟩, 120, 0, 300,
        0.15⟩ : AIPaddleController).paddle.rect.y : ℤ)| ≤ AI_PADDLE_SPEED :=
  ai_staleness_bound _ 60 0 rfl rfl (by norm_num [Rect.top])
    (by norm_num [Rect.bottom, HEIGHT])

/-! ### C7: AI target recompute and noise sigma -/

/-- C7 counterexample: two states with the same ball horizontal position and
the same speed scalar, differing only in `vx`, produce different recomputed
targets under the same Gaussian draw — so the noise sigma is a function of
`max(1, |vx|)`, not of the ball's speed scalar as the claim's formula says. -/
theorem ai_sigma_speed_counterexample :
    (⟨⟨394, 294, 12, 12⟩, 3, Real.sqrt 27, 6⟩ : Ball).rect.centerx =
      (⟨⟨394, 294, 12, 12⟩, 6, 0, 6⟩ : Ball).rect.centerx ∧
    (⟨⟨394, 294, 12, 12⟩, 3, Real.sqrt 27, 6⟩ : Ball).speed =
      (⟨⟨394, 294, 12, 12⟩, 6, 0, 6⟩ : Ball).speed ∧
    ((⟨⟨⟨756, 250, 12, 100⟩, 6⟩, ⟨⟨394, 294, 12, 12⟩, 3, Real.sqrt 27, 6⟩, 120, 0, 300,
        0.15⟩ : AIPaddleController).update 200 1).target_center_y ≠
      ((⟨⟨⟨756, 250, 12, 100⟩, 6⟩, ⟨⟨394, 294, 12, 12⟩, 6, 0, 6⟩, 120, 0, 300,
        0.15⟩ : AIPaddleController).update 200 1).target_center_y := by
  have ha3 : |(3 : ℝ)| = 3 := abs_of_pos (by norm_num)
  have ha6 : |(6 : ℝ)| = 6 := abs_of_pos (by norm_num)
  refine ⟨rfl, rfl, ?_⟩
  norm_num [AIPaddleController.update, Rect.centerx, Rect.centery, WIDTH,
    ha3, ha6, min_def, max_def]

/-- C7 (amended): on a recompute frame with the ball approaching the AI, the
new target is the ball's vertical center plus `z · sigma`, where `z` is the
standard normal draw and
`sigma = min(80, 8 + max(1, WIDTH - ball.centerx)/20 + max(1, |vx|) · 1.2)`
— growing with the horizontal distance to the right edge and with the
magnitude of the horizontal velocity. -/
theorem ai_target_recompute (c : AIPaddleController) (now : ℤ) (z : ℝ)
    (hsu : now - c.last_update_time ≥ c.update_interval_ms)
    (htw : c.ball.vx > 0) :
    (c.update now z).target_center_y =
      (c.ball.rect.centery : ℝ) +
        z * min 80.0 (8.0 + ((max 1 (WIDTH - c.ball.rect.centerx) : ℤ) : ℝ) / 20.0 +
          max 1.0 |c.ball.vx| * 1.2) := by
  simp only [AIPaddleController.update, if_pos hsu, if_pos htw]

/-- C7 witness: a concrete recompute with the ball moving right matches the
sigma formula. -/
theorem ai_target_recompute_witness :
    (((⟨⟨⟨756, 250, 12, 100⟩, 6⟩, ⟨⟨394, 294, 12, 12⟩, 6, 0, 6⟩, 120, 0, 300,
        0.15⟩ : AIPaddleController).update 200 1).target_center_y =
      ((⟨⟨⟨756, 250, 12, 100⟩, 6⟩, ⟨⟨394, 294, 12, 12⟩, 6, 0, 6⟩, 120, 0, 300,
          0.15⟩ : AIPaddleController).ball.rect.centery : ℝ) +
        1 * min 80.0 (8.0 + ((max 1 (WIDTH -
            (⟨⟨⟨756, 250, 12, 100⟩, 6⟩, ⟨⟨394, 294, 12, 12⟩, 6, 0, 6⟩, 120, 0, 300,
              0.15⟩ : AIPaddleController).ball.rect.centerx) : ℤ) : ℝ) / 20.0 +
          max 1.0 |((⟨⟨⟨756, 250, 12, 100⟩, 6⟩, ⟨⟨394, 294, 12, 12⟩, 6, 0, 6⟩, 120, 0, 300,
              0.15⟩ : AIPaddleController).ball.vx)| * 1.2)) :=
  ai_target_recompute _ 200 1 (by norm_num) (by norm_num)

/-! ### C10: constructor validation -/

/-- C10: the constructors perform no precondition validation.  A ball built
with speed `20 > BALL_SPEED_MAX` and a paddle taller than the field are both
constructed successfully and carry the invalid configuration into the
simulation, instead of failing fast as the spec requires. -/
theorem ball_init_no_validation :
    (Ball.init ⟨394, 294, 12, 12⟩ 20 0 1).speed = 20 ∧ BALL_SPEED_MAX < 20 ∧
    (⟨⟨32, 0, 12, 700⟩, 7⟩ : Paddle).rect.h = 700 ∧ HEIGHT < 700 := by
  refine ⟨rfl, ?_, rfl, ?_⟩
  · unfold BALL_SPEED_MAX
    norm_num
  · unfold HEIGHT
    norm_num

end Pong
